import Mathlib

/-!
# Verification of the probemeister debug-probe shell core

Shallow embedding of `src/main.rs` of the `probemeister` repository:
the REPL command parsers for the disconnected and connected states, the
`connect` session transition, the target-identification-register decoder
`parse_target_id`, the `show_info` operation with its IDCODE validation,
and the memory-dump formatting of `dump_memory`.

Machine integers are modelled as `Nat` with explicit `% 2^w` at the
points where the Rust code casts (`as u8`, `as u16`) or where `u32`
arithmetic may wrap; printed output is modelled as the list of emitted
strings (one entry per `println!` site) or as one output `String` for
the character-exact `dump_memory` formatting.  The external probe
capability (USB enumeration, the `stlink` crate, `libusb`) is opaque:
its calls are parameters of the embedded functions, an `Except`-valued
oracle per call site.
-/

/-! ## Register decoder (`parse_target_id`, main.rs lines 184-191)

```rust
// revision | partno | designer | reserved
// 4 bit    | 16 bit | 11 bit   | 1 bit
fn parse_target_id(value: u32) -> (u8, u16, u16, u8) {
    (
        (value >> 28) as u8,
        (value >> 12) as u16,
        ((value >> 1) & 0x07FF) as u16,
        (value & 0x01) as u8,
    )
}
```

`value` is a `u32` (`value < 2^32`); the `as u8` / `as u16` casts
truncate mod `2^8` / `2^16`. -/

def parse_target_id (value : Nat) : Nat × Nat × Nat × Nat :=
  ((value >>> 28) % 2 ^ 8,
   (value >>> 12) % 2 ^ 16,
   ((value >>> 1) &&& 0x07FF) % 2 ^ 16,
   (value &&& 0x01) % 2 ^ 8)

/-- Encoding of the four identification fields back into a 32-bit word,
following the documented bit layout of the spec (most-significant first:
4-bit revision, 16-bit part number, 11-bit designer, 1-bit reserved). -/
def encode_target_id (revision partno designer reserved : Nat) : Nat :=
  revision <<< 28 + partno <<< 12 + designer <<< 1 + reserved

/-! ## IDCODE validation (`show_info`, main.rs lines 256-261)

```rust
if target_info.3 != 1
    || !(target_info.0 == 0x3 || target_info.0 == 0x4)
    || !(target_info.1 == 0xBA00 || target_info.1 == 0xBA02)
{
    return Err("The IDCODE register has not-expected contents.");
}
Ok(())
```
-/

def idcode_check (t : Nat × Nat × Nat × Nat) : Except String Unit :=
  if t.2.2.2 ≠ 1
      ∨ ¬(t.1 = 0x3 ∨ t.1 = 0x4)
      ∨ ¬(t.2.1 = 0xBA00 ∨ t.2.1 = 0xBA02) then
    .error "The IDCODE register has not-expected contents."
  else
    .ok ()

/-! ## Tokenization and Rust integer parsing

`line.split_whitespace()` splits a line into the maximal runs of
non-whitespace characters.  `str::parse::<u8>` / `u32::from_str_radix`
accept an optional leading `+` followed by at least one digit of the
radix and fail on any other character, on an empty digit string, and on
overflow past the integer width. -/

def splitWsAux : List Char → List Char → List (List Char)
  | [], acc => if acc.isEmpty then [] else [acc.reverse]
  | c :: cs, acc =>
    if c.isWhitespace then
      if acc.isEmpty then splitWsAux cs [] else acc.reverse :: splitWsAux cs []
    else splitWsAux cs (c :: acc)

def split_whitespace (line : String) : List String :=
  (splitWsAux line.data []).map String.mk

/-- Decimal digit value of a character, `none` for a non-digit. -/
def digitVal (c : Char) : Option Nat :=
  if c.isDigit then some (c.toNat - 48) else none

/-- Hexadecimal digit value of a character (`0-9a-fA-F`), `none` otherwise. -/
def hexDigitVal (c : Char) : Option Nat :=
  if c.isDigit then some (c.toNat - 48)
  else if 97 ≤ c.toNat ∧ c.toNat ≤ 102 then some (c.toNat - 87)
  else if 65 ≤ c.toNat ∧ c.toNat ≤ 70 then some (c.toNat - 55)
  else none

/-- Digit-string accumulation: `none` on an empty list or any non-digit. -/
def digitsValue (digit : Char → Option Nat) (radix : Nat) (cs : List Char) : Option Nat :=
  cs.foldl (fun acc c => acc.bind fun a => (digit c).map fun d => a * radix + d)
    (if cs.isEmpty then none else some 0)

/-- Syntactic unsigned-numeral parse of Rust's integer `FromStr` /
`from_str_radix`: optional leading `+`, then one or more digits; the numeric
value is unbounded (the width check is layered on top in `from_str_radix`). -/
def numeral_value (digit : Char → Option Nat) (radix : Nat) (s : String) : Option Nat :=
  match s.data with
  | '+' :: rest => digitsValue digit radix rest
  | cs => digitsValue digit radix cs

/-- Rust `from_str_radix` / `parse::<uN>` for an unsigned integer of bit width
`width`: the syntactic parse plus the overflow check. -/
def from_str_radix (width : Nat) (digit : Char → Option Nat) (radix : Nat)
    (s : String) : Option Nat :=
  (numeral_value digit radix s).bind fun v => if v < 2 ^ width then some v else none

/-- Rust `rest[0].parse::<u8>()` (main.rs line 45). -/
def parse_u8 (s : String) : Option Nat := from_str_radix 8 digitVal 10 s

/-- Rust `rest[1].parse::<u32>()` (main.rs line 108). -/
def parse_u32 (s : String) : Option Nat := from_str_radix 32 digitVal 10 s

/-- Rust `u32::from_str_radix(rest[0], 16)` (main.rs line 119). -/
def from_str_radix_16 (s : String) : Option Nat := from_str_radix 32 hexDigitVal 16 s

/-! ## REPL command vocabularies (main.rs lines 11-26) -/

inductive REPLDisconnected where
  | Connect (n : Nat)
  | Continue
  | Exit
  | Help
deriving DecidableEq

inductive REPLConnected where
  | Continue
  | Disconnect
  | Dump (loc : Nat) (words : Nat)
  | Exit
  | Help
  | Info
  | Reset
deriving DecidableEq

/-- The diagnostic printed for an unrecognized input line
(main.rs lines 76 and 153). -/
def unknown_line (line : String) : String :=
  "Sorry, I don't know what '" ++ line ++ "' is, try 'help'?"

/-- One entry of the `list` command's report
(`"[{}]: PID = {}, version = {}"`, main.rs lines 65-69 and 141-145);
a plugged device is modelled by its printed `usb_pid` and `version_name`. -/
def device_line (p : Nat × Nat × String) : String :=
  "[" ++ Nat.repr p.1 ++ "]: PID = " ++ Nat.repr p.2.1 ++ ", version = " ++ p.2.2

/-- Output of the `list` command (main.rs lines 58-73 and 134-149):
on successful enumeration a header line plus one line per device,
on enumeration failure nothing; either way the command is `Continue`. -/
def list_output (plugged : Except Unit (List (Nat × String))) : List String :=
  match plugged with
  | .ok connected_devices =>
      "The following devices were found:" :: connected_devices.enum.map device_line
  | .error _ => []

/-! ## Disconnected-state parser (`unconnected_repl`, main.rs lines 28-87)

The embedding covers the `Ok(line)` branch of the readline result: the
tokenization of the line and the match on its first token.  The probe
enumeration used by `list` is the opaque `plugged` parameter.  The result
is the parsed command together with the list of printed lines. -/

def unconnected_repl (plugged : Except Unit (List (Nat × String)))
    (line : String) : REPLDisconnected × List String :=
  match split_whitespace line with
  | "connect" :: rest =>
    if rest.isEmpty then
      (.Continue, ["Need to supply probe id"])
    else
      match parse_u8 rest[0]! with
      | none => (.Continue, ["Invalid probe id '" ++ rest[0]! ++ "'"])
      | some n => (.Connect n, [])
  | "help" :: _ => (.Help, [])
  | "list" :: _ => (.Continue, list_output plugged)
  | "exit" :: _ => (.Exit, [])
  | "quit" :: _ => (.Exit, [])
  | _ => (.Continue, [unknown_line line])

/-! ## Connected-state parser (`connected_repl`, main.rs lines 89-164) -/

def connected_repl (plugged : Except Unit (List (Nat × String)))
    (line : String) : REPLConnected × List String :=
  match split_whitespace line with
  | "disconnect" :: _ => (.Disconnect, [])
  | "dump" :: rest =>
    if rest.length = 1 ∨ rest.length = 2 then
      let ws :=
        if rest.length = 2 then
          match parse_u32 rest[1]! with
          | some w => (w, ([] : List String))
          | none =>
              (1, ["Cannot parse '" ++ rest[1]! ++ "' as number of words, will use 1 instead"])
        else (1, [])
      match from_str_radix_16 rest[0]! with
      | none => (.Continue, ws.2 ++ ["Cannot parse '" ++ rest[0]! ++ "' as address"])
      | some loc => (.Dump loc ws.1, ws.2)
    else
      (.Continue, ["Usage: dump <loc> [n]"])
  | "help" :: _ => (.Help, [])
  | "info" :: _ => (.Info, [])
  | "list" :: _ => (.Continue, list_output plugged)
  | "reset" :: _ => (.Reset, [])
  | "exit" :: _ => (.Exit, [])
  | "quit" :: _ => (.Exit, [])
  | _ => (.Continue, [unknown_line line])

/-! ## The `connect` transition (main.rs lines 166-180 and 287-289)

```rust
fn connect(n: u8) -> Option<stlink::STLink> {
    stlink::STLink::new_from_connected(|mut devices| {
        if devices.len() <= n as usize {
            println!("The probe device with the given id '{}' was not found", n);
            Err(libusb::Error::NotFound)
        } else {
            Ok(devices.remove(n as usize).0)
        }
    })
    .map(|mut device| {
        device.attach(probe::protocol::WireProtocol::Swd).ok();
        device
    })
    .ok()
}
```

`STLink::new_from_connected` and `attach` belong to the external probe
capability (spec: `open(identifier) → handle or failure`,
`attach(handle, protocol) → success/failure`): they are modelled by the
oracle parameters `open_device` and `attach`.  `new_from_connected` runs
the closure on the enumerated device list and opens the selected device;
a closure error or an open error yields `Err`, which the trailing
`.ok()` turns into `None`.  The `.ok()` inside `.map` discards the
result of `attach`. -/

abbrev Handle := Nat

def connect (devices : List Handle) (open_device : Handle → Except Unit Handle)
    (attach : Handle → Except Unit Unit) (n : Nat) : Option Handle × List String :=
  if devices.length ≤ n then
    (none, ["The probe device with the given id '" ++ Nat.repr n ++ "' was not found"])
  else
    match open_device devices[n]! with
    | .error _ => (none, [])
    | .ok device =>
        let _ := (attach device).toOption
        (some device, [])

/-- The `main` loop's handling of a `Connect` command in the `Disconnected`
state (main.rs lines 287-289): the new session state is `Some` (Connected)
exactly when `connect` returned a handle. -/
def step_connect (devices : List Handle) (open_device : Handle → Except Unit Handle)
    (attach : Handle → Except Unit Unit) (n : Nat) : Option Handle :=
  (connect devices open_device attach n).1

/-! ## `show_info` (main.rs lines 219-263)

The probe capability calls made by `show_info` are modelled by the
`Probe` oracle; `show_info` returns the ordered trace of capability
calls it performed, the list of printed lines, and its `Result`.  The
hardware/JTAG version values are displayed with `{:?}`; their rendering
is opaque, so the oracle supplies them as strings. -/

structure Probe where
  get_version : Except Unit (String × String)
  write_register : Nat → Nat → Nat → Except Unit Unit
  read_register : Nat → Nat → Except Unit Nat

inductive InfoStep where
  | get_version
  | write_register (port addr value : Nat)
  | read_register (port addr : Nat)
deriving DecidableEq

/-- Lowercase hexadecimal rendering of an integer (Rust `{:x}`). -/
def hex_display (n : Nat) : String := (Nat.toDigits 16 n).asString

def show_info (dev : Probe) : List InfoStep × List String × Except String Unit :=
  match dev.get_version with
  | .error _ => ([.get_version], [], .error "Could not get version")
  | .ok version =>
    let out0 := ["Device information:",
      "Hardware Version: " ++ version.1,
      "JTAG Version: " ++ version.2]
    match dev.write_register 0xFFFF 0x2 0x2 with
    | .error _ =>
        ([.get_version, .write_register 0xFFFF 0x2 0x2], out0, .error "")
    | .ok _ =>
      match dev.read_register 0xFFFF 0x4 with
      | .error _ =>
          ([.get_version, .write_register 0xFFFF 0x2 0x2, .read_register 0xFFFF 0x4],
           out0, .error "")
      | .ok target_raw =>
        let t := parse_target_id target_raw
        let out1 := out0 ++ ["Target Identification Register (TARGETID):",
          "\tRevision = " ++ Nat.repr t.1 ++ ", Part Number = " ++ Nat.repr t.2.2.2
            ++ ", Designer = " ++ Nat.repr t.2.2.1]
        match dev.read_register 0xFFFF 0x0 with
        | .error _ =>
            ([.get_version, .write_register 0xFFFF 0x2 0x2, .read_register 0xFFFF 0x4,
              .read_register 0xFFFF 0x0], out1, .error "")
        | .ok idcode_raw =>
          let u := parse_target_id idcode_raw
          let out2 := out1 ++ ["\nIdentification Code Register (IDCODE):",
            "\tProtocol = "
              ++ (if u.1 = 0x4 then "JTAG-DP"
                  else if u.1 = 0x3 then "SW-DP"
                  else "Unknown Protocol")
              ++ ",\n\tPart Number = " ++ Nat.repr u.2.1
              ++ ",\n\tJEDEC Manufacturer ID = " ++ hex_display u.2.2.1]
          ([.get_version, .write_register 0xFFFF 0x2 0x2, .read_register 0xFFFF 0x4,
            .read_register 0xFFFF 0x0], out2, idcode_check u)

/-! ## Memory-dump formatting (`dump_memory`, main.rs lines 193-217)

```rust
for word in 0..words {
    if word % 4 == 0 {
        print!("0x{:08x?}: ", loc + 4 * word);
    }
    print!("{:08x} ", data[word as usize]);
    if word % 4 == 3 {
        println!();
    }
}
if words % 4 != 0 {
    println!();
}
```

The embedding renders the already-fetched block `data` (so
`words = data.length`); `loc + 4 * word` is `u32` arithmetic, hence the
`% 2^32`.  `hex8` is Rust's `{:08x}` for a `u32`: exactly eight
lowercase hexadecimal digits. -/

def hex8 (v : Nat) : String :=
  String.mk ((List.range 8).map fun i => Nat.digitChar (v / 16 ^ (7 - i) % 16))

def dump_words (loc : Nat) : Nat → List Nat → String
  | _, [] => ""
  | i, w :: ws =>
    (if i % 4 = 0 then "0x" ++ hex8 ((loc + 4 * i) % 2 ^ 32) ++ ": " else "")
      ++ (hex8 w ++ " ")
      ++ (if i % 4 = 3 then "\n" else "")
      ++ dump_words loc (i + 1) ws

def dump_memory (loc : Nat) (data : List Nat) : String :=
  dump_words loc 0 data ++ (if data.length % 4 ≠ 0 then "\n" else "")

/-- A dump row as the claim describes it: the address header, then the words
as 8-digit hex groups *separated* by single spaces, then a newline. -/
def row_claimed (addr : Nat) (ws : List Nat) : String :=
  "0x" ++ hex8 (addr % 2 ^ 32) ++ ": " ++ String.intercalate " " (ws.map hex8) ++ "\n"

/-- The dump output as the claim describes it: rows of four words,
consecutive row addresses 16 apart. -/
def dump_claimed : Nat → List Nat → String
  | _, [] => ""
  | loc, [a] => row_claimed loc [a]
  | loc, [a, b] => row_claimed loc [a, b]
  | loc, [a, b, c] => row_claimed loc [a, b, c]
  | loc, a :: b :: c :: d :: rest =>
      row_claimed loc [a, b, c, d] ++ dump_claimed (loc + 16) rest

/-- A dump row as the code produces it: the address header, then each word as
an 8-digit hex group followed by one space, then a newline. -/
def row_out (addr : Nat) (ws : List Nat) : String :=
  "0x" ++ hex8 (addr % 2 ^ 32) ++ ": " ++ String.join (ws.map fun w => hex8 w ++ " ") ++ "\n"

/-- The dump output, row-structured: rows of four words, consecutive row
addresses 16 apart, each word followed by one space. -/
def dump_rows : Nat → List Nat → String
  | _, [] => ""
  | loc, [a] => row_out loc [a]
  | loc, [a, b] => row_out loc [a, b]
  | loc, [a, b, c] => row_out loc [a, b, c]
  | loc, a :: b :: c :: d :: rest =>
      row_out loc [a, b, c, d] ++ dump_rows (loc + 16) rest

/-! ## Sanity examples -/

example : parse_target_id 0x3BA00477 = (0x3, 0xBA00, 0x23B, 1) := by decide
example : idcode_check (0x3, 0xBA00, 0x23B, 1) = .ok () := rfl
example : idcode_check (0x3, 0xBA00, 0x23B, 0) =
    .error "The IDCODE register has not-expected contents." := rfl
example : split_whitespace "connect 7" = ["connect", "7"] := by decide
example : parse_u8 "255" = some 255 := by decide
example : parse_u8 "256" = none := by decide
example : parse_u8 "+7" = some 7 := by decide
example : parse_u8 "-1" = none := by decide
example : from_str_radix_16 "1000" = some 0x1000 := by decide
example : from_str_radix_16 "0x1000" = none := by decide
example : unconnected_repl (.ok []) "connect 3" = (.Connect 3, []) := by decide
example : connected_repl (.ok []) "dump 1000 2" = (.Dump 0x1000 2, []) := by decide

/-! ## Theorems -/

/-- On any 32-bit value the decoder computes the div/mod field extraction
of the fixed layout (helper shared by the field-layout and round-trip
theorems). -/
theorem parse_target_id_eq (value : Nat) (h : value < 2 ^ 32) :
    parse_target_id value =
      (value / 2 ^ 28, value / 2 ^ 12 % 2 ^ 16, value / 2 ^ 1 % 2 ^ 11, value % 2) := by
  unfold parse_target_id
  have hA : value >>> 1 &&& 0x07FF = value >>> 1 % 2 ^ 11 := by
    have h2 := Nat.and_pow_two_sub_one_eq_mod (value >>> 1) 11
    norm_num at h2
    exact h2
  have hB : value &&& 0x01 = value % 2 := Nat.and_one_is_mod value
  rw [hA, hB, Nat.shiftRight_eq_div_pow, Nat.shiftRight_eq_div_pow,
    Nat.shiftRight_eq_div_pow]
  have b28 : value / 2 ^ 28 < 2 ^ 8 := by
    apply Nat.div_lt_of_lt_mul
    calc value < 2 ^ 32 := h
      _ ≤ 2 ^ 28 * 2 ^ 8 := by norm_num
  have m1 : value / 2 ^ 28 % 2 ^ 8 = value / 2 ^ 28 := Nat.mod_eq_of_lt b28
  have m2 : value / 2 ^ 1 % 2 ^ 11 % 2 ^ 16 = value / 2 ^ 1 % 2 ^ 11 :=
    Nat.mod_eq_of_lt (lt_of_lt_of_le (Nat.mod_lt _ (by norm_num)) (by norm_num))
  have m3 : value % 2 % 2 ^ 8 = value % 2 :=
    Nat.mod_eq_of_lt (lt_of_lt_of_le (Nat.mod_lt _ (by norm_num)) (by norm_num))
  rw [m1, m2, m3]

/-- C2 — For every 32-bit register value, `parse_target_id` returns exactly
the four fields of the fixed layout: revision = bits 31-28 (4 bits),
part number = bits 27-12 (16 bits), designer = bits 11-1 (11 bits),
reserved flag = bit 0; in particular
`parse_target_id 0x3BA00477 = (0x3, 0xBA00, 0x23B, 1)` (designer `0x23B`
being bits 11-1 of `0x3BA00477`, reserved `1`). -/
theorem parse_target_id_fields (value : Nat) (h : value < 2 ^ 32) :
    parse_target_id value =
      (value / 2 ^ 28, value / 2 ^ 12 % 2 ^ 16, value / 2 ^ 1 % 2 ^ 11, value % 2)
    ∧ parse_target_id 0x3BA00477 = (0x3, 0xBA00, 0x23B, 1) :=
  ⟨parse_target_id_eq value h, by decide⟩

/-- Witness for `parse_target_id_fields` at the concrete value `0x3BA00477`. -/
theorem parse_target_id_fields_witness :
    parse_target_id 0x3BA00477 =
      (0x3BA00477 / 2 ^ 28, 0x3BA00477 / 2 ^ 12 % 2 ^ 16,
       0x3BA00477 / 2 ^ 1 % 2 ^ 11, 0x3BA00477 % 2)
    ∧ parse_target_id 0x3BA00477 = (0x3, 0xBA00, 0x23B, 1) :=
  parse_target_id_fields 0x3BA00477 (by norm_num)

/-- C3 — Validation of a decoded IDCODE tuple succeeds if and only if the
reserved flag equals 1, the revision field is `0x3` or `0x4`, and the
part-number field is `0xBA00` or `0xBA02`; every other combination is rejected
with the unexpected-IDCODE error. -/
theorem idcode_check_iff (rev part des res : Nat) :
    (idcode_check (rev, part, des, res) = .ok ()
        ↔ res = 1 ∧ (rev = 0x3 ∨ rev = 0x4) ∧ (part = 0xBA00 ∨ part = 0xBA02))
    ∧ (idcode_check (rev, part, des, res) =
          .error "The IDCODE register has not-expected contents."
        ↔ ¬(res = 1 ∧ (rev = 0x3 ∨ rev = 0x4) ∧ (part = 0xBA00 ∨ part = 0xBA02))) := by
  unfold idcode_check
  split
  · constructor
    · simp only [reduceCtorEq, false_iff]
      tauto
    · simp only [true_iff]
      tauto
  · constructor
    · simp only [true_iff]
      tauto
    · simp only [reduceCtorEq, false_iff]
      tauto

/-- C9 — Encoding four in-range fields with the documented layout and
decoding the result with `parse_target_id` returns the original tuple, and
encoding the decoded fields of any 32-bit value reproduces that value. -/
theorem target_id_roundtrip (r p d s v : Nat)
    (hr : r < 2 ^ 4) (hp : p < 2 ^ 16) (hd : d < 2 ^ 11) (hs : s < 2 ^ 1)
    (hv : v < 2 ^ 32) :
    parse_target_id (encode_target_id r p d s) = (r, p, d, s)
    ∧ encode_target_id (parse_target_id v).1 (parse_target_id v).2.1
        (parse_target_id v).2.2.1 (parse_target_id v).2.2.2 = v := by
  have e4 : (2 : Nat) ^ 4 = 16 := by norm_num
  have e16 : (2 : Nat) ^ 16 = 65536 := by norm_num
  have e11 : (2 : Nat) ^ 11 = 2048 := by norm_num
  have e1 : (2 : Nat) ^ 1 = 2 := by norm_num
  have e32 : (2 : Nat) ^ 32 = 4294967296 := by norm_num
  have e28 : (2 : Nat) ^ 28 = 268435456 := by norm_num
  have e12 : (2 : Nat) ^ 12 = 4096 := by norm_num
  have henc : encode_target_id r p d s < 2 ^ 32 := by
    unfold encode_target_id
    simp only [Nat.shiftLeft_eq, e28, e12, e1, e32]
    rw [e4] at hr; rw [e16] at hp; rw [e11] at hd; rw [e1] at hs
    omega
  constructor
  · rw [parse_target_id_eq _ henc]
    unfold encode_target_id
    simp only [Nat.shiftLeft_eq, e28, e12, e1, e16, e11, Prod.mk.injEq]
    rw [e4] at hr; rw [e16] at hp; rw [e11] at hd; rw [e1] at hs
    refine ⟨?_, ?_, ?_, ?_⟩ <;> omega
  · rw [parse_target_id_eq _ hv]
    unfold encode_target_id
    simp only [Nat.shiftLeft_eq, e28, e12, e1, e16, e11]
    rw [e32] at hv
    omega

/-- Witness for `target_id_roundtrip` at the fields of `0x3BA00477`. -/
theorem target_id_roundtrip_witness :
    parse_target_id (encode_target_id 0x3 0xBA00 0x23B 1) = (0x3, 0xBA00, 0x23B, 1)
    ∧ encode_target_id (parse_target_id 0x3BA00477).1 (parse_target_id 0x3BA00477).2.1
        (parse_target_id 0x3BA00477).2.2.1 (parse_target_id 0x3BA00477).2.2.2
      = 0x3BA00477 :=
  target_id_roundtrip 0x3 0xBA00 0x23B 1 0x3BA00477
    (by norm_num) (by norm_num) (by norm_num) (by norm_num) (by norm_num)

set_option maxRecDepth 4000 in
/-- The decimal representation of any value below 256 parses as `u8` to that
value (helper for the connect-argument theorem). -/
theorem parse_u8_repr : ∀ v < 256, parse_u8 (Nat.repr v) = some v := by decide

/-- A token that is not an (optionally `+`-signed) digit string, or whose
value exceeds 255, fails the `u8` parse (helper). -/
theorem parse_u8_none (t : String)
    (h : numeral_value digitVal 10 t = none
        ∨ ∃ w, numeral_value digitVal 10 t = some w ∧ 255 < w) :
    parse_u8 t = none := by
  unfold parse_u8 from_str_radix
  rcases h with h | ⟨w, hw, hgt⟩
  · rw [h]; rfl
  · rw [hw]
    simp only [Option.some_bind]
    rw [if_neg (by norm_num; omega)]

/-- C7 — In the Disconnected state, `connect <token>` parses to
`Connect v` for every token that is the decimal representation of a value
`v ≤ 255`; a non-numeric token or one whose value exceeds 255 yields
`Continue` with the invalid-probe-id diagnostic; a missing argument yields
`Continue` with the supply-probe-id diagnostic. -/
theorem connect_arg_parse (plugged : Except Unit (List (Nat × String)))
    (line t : String) (v : Nat) :
    (split_whitespace line = ["connect", t] → t = Nat.repr v → v < 256 →
        unconnected_repl plugged line = (.Connect v, []))
    ∧ (split_whitespace line = ["connect", t] →
        (numeral_value digitVal 10 t = none
          ∨ ∃ w, numeral_value digitVal 10 t = some w ∧ 255 < w) →
        unconnected_repl plugged line = (.Continue, ["Invalid probe id '" ++ t ++ "'"]))
    ∧ (split_whitespace line = ["connect"] →
        unconnected_repl plugged line = (.Continue, ["Need to supply probe id"])) := by
  refine ⟨?_, ?_, ?_⟩
  · intro hs ht hv
    subst ht
    unfold unconnected_repl
    rw [hs]
    simp [parse_u8_repr v hv]
  · intro hs hbad
    unfold unconnected_repl
    rw [hs]
    simp [parse_u8_none t hbad]
  · intro hs
    unfold unconnected_repl
    rw [hs]
    rfl

/-- Witness for `connect_arg_parse`: the line `connect 255`. -/
theorem connect_arg_parse_witness :
    unconnected_repl (.ok []) "connect 255" = (.Connect 255, []) :=
  (connect_arg_parse (.ok []) "connect 255" "255" 255).1 (by decide) (by decide)
    (by norm_num)

/-- C8 — In the Connected state, `dump` requires 1 or 2 arguments
(otherwise a usage diagnostic and `Continue`); the address is parsed base-16
and an unparsable address yields `Continue` with a diagnostic; the word count
defaults to exactly 1 both when omitted and when present but unparsable as a
decimal unsigned integer (then with a printed fallback notice). -/
theorem dump_arg_parse (plugged : Except Unit (List (Nat × String)))
    (line a c : String) (rest : List String) (loc w : Nat) :
    (split_whitespace line = "dump" :: rest → rest.length ≠ 1 → rest.length ≠ 2 →
        connected_repl plugged line = (.Continue, ["Usage: dump <loc> [n]"]))
    ∧ (split_whitespace line = ["dump", a] → from_str_radix_16 a = none →
        connected_repl plugged line =
          (.Continue, ["Cannot parse '" ++ a ++ "' as address"]))
    ∧ (split_whitespace line = ["dump", a] → from_str_radix_16 a = some loc →
        connected_repl plugged line = (.Dump loc 1, []))
    ∧ (split_whitespace line = ["dump", a, c] → parse_u32 c = none →
        from_str_radix_16 a = some loc →
        connected_repl plugged line =
          (.Dump loc 1, ["Cannot parse '" ++ c ++ "' as number of words, will use 1 instead"]))
    ∧ (split_whitespace line = ["dump", a, c] → parse_u32 c = some w →
        from_str_radix_16 a = some loc →
        connected_repl plugged line = (.Dump loc w, []))
    ∧ (split_whitespace line = ["dump", a, c] → parse_u32 c = none →
        from_str_radix_16 a = none →
        connected_repl plugged line =
          (.Continue, ["Cannot parse '" ++ c ++ "' as number of words, will use 1 instead",
                       "Cannot parse '" ++ a ++ "' as address"])) := by
  refine ⟨?_, ?_, ?_, ?_, ?_, ?_⟩
  · intro hs h1 h2
    unfold connected_repl
    rw [hs]
    simp [h1, h2]
  · intro hs ha
    unfold connected_repl
    rw [hs]
    simp [ha]
  · intro hs ha
    unfold connected_repl
    rw [hs]
    simp [ha]
  · intro hs hc ha
    unfold connected_repl
    rw [hs]
    simp [hc, ha]
  · intro hs hc ha
    unfold connected_repl
    rw [hs]
    simp [hc, ha]
  · intro hs hc ha
    unfold connected_repl
    rw [hs]
    simp [hc, ha]

/-- Two strings with different first characters differ (helper). -/
theorem str_ne_of_head {s t : String} (h : s.data.head? ≠ t.data.head?) : s ≠ t :=
  fun e => h (congrArg (fun x => x.data.head?) e)

/-- The first character of `pre ++ x` is the first character of a nonempty
`pre` (helper). -/
theorem head_append_left (pre x : String) (c : Char) (h : pre.data.head? = some c) :
    (pre ++ x).data.head? = some c := by
  rw [String.data_append]
  cases hp : pre.data with
  | nil => rw [hp] at h; simp at h
  | cons d ds =>
    rw [hp] at h
    simp only [List.head?_cons] at h
    simp only [List.cons_append, List.head?_cons]
    exact h

/-- The unknown-command diagnostic always starts with `S` (helper). -/
theorem unknown_line_head (line : String) : (unknown_line line).data.head? = some 'S' := by
  unfold unknown_line
  exact head_append_left _ _ _ (head_append_left _ _ _ (by decide))

/-- A string that does not start with `S` is never the unknown-command
diagnostic (helper). -/
theorem ne_unknown_line (s line : String) (c : Char) (hc : s.data.head? = some c)
    (hne : c ≠ 'S') : s ≠ unknown_line line := by
  apply str_ne_of_head
  rw [hc, unknown_line_head]
  simp [hne]

/-- Witness for `dump_arg_parse`: the line `dump 20000000 kk` (parsable
address, unparsable count). -/
theorem dump_arg_parse_witness :
    connected_repl (.ok []) "dump 20000000 kk" =
      (.Dump 0x20000000 1,
       ["Cannot parse 'kk' as number of words, will use 1 instead"]) :=
  (dump_arg_parse (.ok []) "dump 20000000 kk" "20000000" "kk" [] 0x20000000 0).2.2.2.1
    (by decide) (by decide) (by decide)

/-- C5 counterexample — `list` is a recognized keyword of the Connected
state's parser: the line `list` prints the device-enumeration header, not the
unknown-command diagnostic, refuting the claim that the recognized set is
exactly {`disconnect`, `dump`, `info`, `reset`, `help`, `exit`/`quit`} and
that `list` is answered with the diagnostic. -/
theorem connected_list_recognized :
    connected_repl (.ok []) "list" = (.Continue, ["The following devices were found:"])
    ∧ connected_repl (.ok []) "list" ≠ (.Continue, [unknown_line "list"]) := by
  constructor
  · decide
  · decide

/-- C5 amended — In the Connected state the recognized command keywords
are exactly `disconnect`, `dump`, `help`, `info`, `list`, `reset`, `exit` and
`quit`: a line is answered with `Continue` and the diagnostic
`Sorry, I don't know what '<line>' is, try 'help'?` if and only if its first
token is outside this set. -/
theorem connected_vocabulary (plugged : Except Unit (List (Nat × String)))
    (line t : String) (rest : List String)
    (hs : split_whitespace line = t :: rest) :
    connected_repl plugged line = (.Continue, [unknown_line line])
      ↔ t ∉ (["disconnect", "dump", "help", "info", "list", "reset",
              "exit", "quit"] : List String) := by
  constructor
  · intro he hmem
    unfold connected_repl at he
    rw [hs] at he
    simp only [List.mem_cons, List.not_mem_nil, or_false] at hmem
    rcases hmem with rfl | rfl | rfl | rfl | rfl | rfl | rfl | rfl
    · simp at he
    · rcases rest with _ | ⟨a, _ | ⟨c, _ | ⟨d, rest3⟩⟩⟩
      · simp at he
        exact ne_unknown_line _ line 'U' (by decide) (by decide) he
      · cases ha : from_str_radix_16 a with
        | none =>
          simp [ha] at he
          exact ne_unknown_line _ line 'C'
            (head_append_left _ _ _ (head_append_left _ _ _ (by decide)))
            (by decide) he
        | some loc => simp [ha] at he
      · cases hc : parse_u32 c with
        | none =>
          cases ha : from_str_radix_16 a with
          | none => simp [hc, ha] at he
          | some loc => simp [hc, ha] at he
        | some w =>
          cases ha : from_str_radix_16 a with
          | none =>
            simp [hc, ha] at he
            exact ne_unknown_line _ line 'C'
              (head_append_left _ _ _ (head_append_left _ _ _ (by decide)))
              (by decide) he
          | some loc => simp [hc, ha] at he
      · have hlen : ¬((a :: c :: d :: rest3).length = 1
            ∨ (a :: c :: d :: rest3).length = 2) := by
          simp
        simp [hlen] at he
        exact ne_unknown_line _ line 'U' (by decide) (by decide) he
    · simp at he
    · simp at he
    · cases plugged with
      | error e =>
        simp [list_output] at he
      | ok devs =>
        simp [list_output] at he
        exact ne_unknown_line _ line 'T' (by decide) (by decide) he.1
    · simp at he
    · simp at he
    · simp at he
  · intro hnot
    simp only [List.mem_cons, List.not_mem_nil, or_false, not_or] at hnot
    obtain ⟨h1, h2, h3, h4, h5, h6, h7, h8⟩ := hnot
    unfold connected_repl
    rw [hs]
    simp [h1, h2, h3, h4, h5, h6, h7, h8]

/-- Witness for `connected_vocabulary`: the line `flash` is answered with the
unknown-command diagnostic. -/
theorem connected_vocabulary_witness :
    connected_repl (.ok []) "flash" = (.Continue, [unknown_line "flash"]) :=
  (connected_vocabulary (.ok []) "flash" "flash" [] (by decide)).mpr (by decide)

/-- C1 counterexample — with one plugged device, a successful probe open
and a *failing* protocol attach, `connect` still returns a handle (so `main`
sets the session to Connected) and prints nothing: the `.ok()` applied to the
`attach` result discards the failure.  This refutes "Connected iff probe open
and protocol attach both succeed; if either fails the session stays
Disconnected and the cause is reported". -/
theorem connect_ignores_attach_failure :
    connect [7] (fun d => .ok d) (fun _ => .error ()) 0 = (some 7, [])
    ∧ step_connect [7] (fun d => .ok d) (fun _ => .error ()) 0 = some 7 := by
  constructor
  · rfl
  · rfl

/-- C1 amended — The Connect transition takes the session from
Disconnected to Connected iff the probe index is in range and the probe open
succeeds, independently of the attach result (`connect` is the same function
for any two attach oracles; an attach failure neither prevents the transition
nor is reported); when the index is out of range the not-found cause is
reported and the session stays Disconnected; when the open fails the session
stays Disconnected with nothing printed. -/
theorem connect_characterization (devices : List Handle)
    (open_device : Handle → Except Unit Handle)
    (attach attach2 : Handle → Except Unit Unit) (n : Nat) :
    ((step_connect devices open_device attach n).isSome = true
        ↔ n < devices.length ∧ (open_device devices[n]!).isOk = true)
    ∧ connect devices open_device attach n = connect devices open_device attach2 n
    ∧ (devices.length ≤ n →
        connect devices open_device attach n =
          (none, ["The probe device with the given id '" ++ Nat.repr n
                    ++ "' was not found"]))
    ∧ (n < devices.length → ∀ d, open_device devices[n]! = .ok d →
        connect devices open_device attach n = (some d, []))
    ∧ (n < devices.length → open_device devices[n]! = .error () →
        connect devices open_device attach n = (none, [])) := by
  refine ⟨?_, ?_, ?_, ?_, ?_⟩
  · unfold step_connect connect
    by_cases hle : devices.length ≤ n
    · rw [if_pos hle]
      simp only [Option.isSome_none, Bool.false_eq_true, false_iff, not_and]
      intro hlt
      omega
    · rw [if_neg hle]
      cases ho : open_device devices[n]! with
      | error e =>
        simp [Except.isOk]
        intro h
        rfl
      | ok d =>
        simp [Except.isOk]
        exact ⟨by omega, rfl⟩
  · rfl
  · intro hle
    unfold connect
    rw [if_pos hle]
  · intro hlt d hd
    unfold connect
    rw [if_neg (by omega), hd]
  · intro hlt hd
    unfold connect
    rw [if_neg (by omega), hd]

/-- Witness for `connect_characterization`: an empty device list makes
`connect 0` fail with the not-found report. -/
theorem connect_characterization_witness :
    connect [] (fun d => .ok d) (fun _ => .ok ()) 0 =
      (none, ["The probe device with the given id '" ++ Nat.repr 0
                ++ "' was not found"]) :=
  (connect_characterization [] (fun d => .ok d) (fun _ => .ok ()) (fun _ => .ok ())
      0).2.2.1 (by decide)

/-- C6 — `show_info` performs its capability calls in the fixed order
get_version, write_register (bank select), read_register of the Target ID
register, read_register of the IDCODE register; whenever a step fails, all
remaining steps are skipped and that step's error is the result; when every
step succeeds the result is the IDCODE validation verdict. -/
theorem show_info_fail_fast (dev : Probe) :
    (∀ e, dev.get_version = .error e →
        show_info dev = ([.get_version], [], .error "Could not get version"))
    ∧ (∀ v, dev.get_version = .ok v →
        dev.write_register 0xFFFF 0x2 0x2 = .error () →
        (show_info dev).1 = [.get_version, .write_register 0xFFFF 0x2 0x2]
        ∧ (show_info dev).2.2 = .error "")
    ∧ (∀ v, dev.get_version = .ok v →
        dev.write_register 0xFFFF 0x2 0x2 = .ok () →
        dev.read_register 0xFFFF 0x4 = .error () →
        (show_info dev).1 = [.get_version, .write_register 0xFFFF 0x2 0x2,
                             .read_register 0xFFFF 0x4]
        ∧ (show_info dev).2.2 = .error "")
    ∧ (∀ v t, dev.get_version = .ok v →
        dev.write_register 0xFFFF 0x2 0x2 = .ok () →
        dev.read_register 0xFFFF 0x4 = .ok t →
        dev.read_register 0xFFFF 0x0 = .error () →
        (show_info dev).1 = [.get_version, .write_register 0xFFFF 0x2 0x2,
                             .read_register 0xFFFF 0x4, .read_register 0xFFFF 0x0]
        ∧ (show_info dev).2.2 = .error "")
    ∧ (∀ v t u, dev.get_version = .ok v →
        dev.write_register 0xFFFF 0x2 0x2 = .ok () →
        dev.read_register 0xFFFF 0x4 = .ok t →
        dev.read_register 0xFFFF 0x0 = .ok u →
        (show_info dev).1 = [.get_version, .write_register 0xFFFF 0x2 0x2,
                             .read_register 0xFFFF 0x4, .read_register 0xFFFF 0x0]
        ∧ (show_info dev).2.2 = idcode_check (parse_target_id u)) := by
  refine ⟨?_, ?_, ?_, ?_, ?_⟩
  · intro e h1
    unfold show_info
    rw [h1]
  · intro v h1 h2
    unfold show_info
    rw [h1, h2]
    exact ⟨rfl, rfl⟩
  · intro v h1 h2 h3
    unfold show_info
    rw [h1, h2, h3]
    exact ⟨rfl, rfl⟩
  · intro v t h1 h2 h3 h4
    unfold show_info
    rw [h1, h2, h3, h4]
    exact ⟨rfl, rfl⟩
  · intro v t u h1 h2 h3 h4
    unfold show_info
    rw [h1, h2, h3, h4]
    exact ⟨rfl, rfl⟩

/-- Witness for `show_info_fail_fast`: a probe whose every call succeeds and
whose registers both read `0x3BA00477`. -/
theorem show_info_fail_fast_witness :
    (show_info ⟨.ok ("V2", "J27"), fun _ _ _ => .ok (), fun _ _ => .ok 0x3BA00477⟩).1 =
      [.get_version, .write_register 0xFFFF 0x2 0x2, .read_register 0xFFFF 0x4,
       .read_register 0xFFFF 0x0]
    ∧ (show_info ⟨.ok ("V2", "J27"), fun _ _ _ => .ok (),
        fun _ _ => .ok 0x3BA00477⟩).2.2 = idcode_check (parse_target_id 0x3BA00477) :=
  (show_info_fail_fast ⟨.ok ("V2", "J27"), fun _ _ _ => .ok (),
      fun _ _ => .ok 0x3BA00477⟩).2.2.2.2 ("V2", "J27") 0x3BA00477 0x3BA00477
    rfl rfl rfl rfl

/-- C10 — In the TARGETID report printed by `show_info`, the value under
the label `Part Number` is the decoded reserved-flag field (bit 0 of the
register value), not the decoded 16-bit part-number field: for every 32-bit
TARGETID value `t` the printed line is
`\tRevision = <bits 31-28>, Part Number = <bit 0>, Designer = <bits 11-1>`,
so the TARGETID part-number field (bits 27-12) is never printed. -/
theorem targetid_report_part_number (dev : Probe) (ver : String × String) (t : Nat)
    (h1 : dev.get_version = .ok ver)
    (h2 : dev.write_register 0xFFFF 0x2 0x2 = .ok ())
    (h3 : dev.read_register 0xFFFF 0x4 = .ok t)
    (ht : t < 2 ^ 32) :
    (show_info dev).2.1.get? 4 =
      some ("\tRevision = " ++ Nat.repr (t / 2 ^ 28)
        ++ ", Part Number = " ++ Nat.repr (t % 2)
        ++ ", Designer = " ++ Nat.repr (t / 2 ^ 1 % 2 ^ 11)) := by
  unfold show_info
  rw [h1, h2, h3]
  cases h4 : dev.read_register 0xFFFF 0x0 with
  | error e => simp [parse_target_id_eq t ht]
  | ok u => simp [parse_target_id_eq t ht]

/-- Witness for `targetid_report_part_number`: the all-succeeding probe whose
TARGETID register reads `0x3BA00477`. -/
theorem targetid_report_part_number_witness :
    (show_info ⟨.ok ("V2", "J27"), fun _ _ _ => .ok (),
        fun _ _ => .ok 0x3BA00477⟩).2.1.get? 4 =
      some ("\tRevision = " ++ Nat.repr (0x3BA00477 / 2 ^ 28)
        ++ ", Part Number = " ++ Nat.repr (0x3BA00477 % 2)
        ++ ", Designer = " ++ Nat.repr (0x3BA00477 / 2 ^ 1 % 2 ^ 11)) :=
  targetid_report_part_number ⟨.ok ("V2", "J27"), fun _ _ _ => .ok (),
      fun _ _ => .ok 0x3BA00477⟩ ("V2", "J27") 0x3BA00477 rfl rfl rfl (by norm_num)

/-- Incrementing the word index by 4 is the same as advancing the base
address by 16 bytes (helper for the dump row structure). -/
theorem dump_words_shift (loc : Nat) (ws : List Nat) : ∀ i,
    dump_words loc (i + 4) ws = dump_words (loc + 16) i ws := by
  induction ws with
  | nil => intro i; rfl
  | cons w ws ih =>
    intro i
    simp only [dump_words]
    rw [Nat.add_mod_right]
    have ha : loc + 4 * (i + 4) = loc + 16 + 4 * i := by ring
    have ht : i + 4 + 1 = i + 1 + 4 := by ring
    rw [ha, ht, ih (i + 1)]

/-- Special case of `dump_words_shift` at index 4 (helper). -/
theorem dump_words_shift4 (loc : Nat) (ws : List Nat) :
    dump_words loc 4 ws = dump_words (loc + 16) 0 ws :=
  dump_words_shift loc ws 0

/-- The per-word print loop of `dump_memory` produces exactly the
row-structured output `dump_rows` (helper). -/
theorem dump_memory_eq_rows (loc : Nat) (data : List Nat) :
    dump_memory loc data = dump_rows loc data := by
  unfold dump_memory
  induction loc, data using dump_rows.induct with
  | case1 loc => rfl
  | case2 loc a =>
    simp [dump_words, dump_rows, row_out, String.join, String.append_assoc,
      String.append_empty, String.empty_append]
  | case3 loc a b =>
    simp [dump_words, dump_rows, row_out, String.join, String.append_assoc,
      String.append_empty, String.empty_append]
  | case4 loc a b c =>
    simp [dump_words, dump_rows, row_out, String.join, String.append_assoc,
      String.append_empty, String.empty_append]
  | case5 loc a b c d rest ih =>
    have hmod : (a :: b :: c :: d :: rest : List Nat).length % 4 = rest.length % 4 := by
      simp
      omega
    rw [hmod]
    simp only [dump_words]
    rw [dump_words_shift4]
    simp [dump_rows, row_out, String.join, String.append_assoc,
      String.append_empty, String.empty_append]
    rw [← ih]
    simp [String.append_assoc]

/-- C4 counterexample — `dump_memory` prints a space after *every* word,
including the last word of a row, so a row ends `" \n"`: for base `0x1000`
and the single word `1` the output is `0x00001000: 00000001 \n`, which
differs from the claimed format (words separated by single spaces and then a
newline, i.e. `0x00001000: 00000001\n`). -/
theorem dump_memory_trailing_space :
    dump_memory 0x1000 [1] = "0x00001000: 00000001 \n"
    ∧ dump_memory 0x1000 [1] ≠ dump_claimed 0x1000 [1]
    ∧ dump_claimed 0x1000 [1] = "0x00001000: 00000001\n" := by
  refine ⟨by decide, by decide, by decide⟩

/-- C4 amended — For every base address and word sequence, the dump
output consists of rows of 4 words where the word at position `i` carries
address `base + 4*i`: each row begins with the header `0x<address>: ` of its
first word's address (8 lowercase hex digits), each word is rendered as
exactly 8 lowercase hex digits *followed by a single space* (so every row
carries a trailing space), and every row — including a final partial row —
ends with a newline; e.g. base `0x1000` with 5 words yields a row headed
`0x00001000: ` with four words and a row headed `0x00001010: ` with one. -/
theorem dump_memory_row_structure (loc : Nat) (data : List Nat) :
    dump_memory loc data = dump_rows loc data
    ∧ dump_memory 0x1000 [1, 2, 3, 4, 5] =
        "0x00001000: 00000001 00000002 00000003 00000004 \n0x00001010: 00000005 \n" :=
  ⟨dump_memory_eq_rows loc data, by decide⟩
